import Mathlib

/-!
Verification development for the roam remote-execution system.

The definitions below are a shallow embedding of the Python sources:

* `src/controller/app/services/tasks.py`   (job submission onto the Redis list)
* `src/worker/roam_worker.py`              (persistent worker: dequeue, execute, publish)
* `src/controller/app/main.py`             (job table, Kubernetes execution loop, status endpoint)
* `src/controller/app/services/streaming.py` and `redis.py` (SSE event stream)
* `src/client/src/remote_env/env.py`       (payload builder, sync wrapper, result polling)

Machine-level Python features (real concurrency, the network, the Redis server
itself) are modelled by explicit data: the Redis list is a Lean list with
`lpush`/`blpop` acting on its left end exactly as the Redis commands do, and
the Kubernetes poll loop is a function of the sequence of poll responses.
-/

namespace Roam

/-! ## The job queue: a Redis list

`TaskService.submit_task` pushes with `LPUSH roam:jobs`, and
`PersistentWorker.start` pops with `BLPOP roam:jobs`.  Both commands act on
the *left* (head) end of the Redis list, so we model the list with its head
as the left end. -/

/-- A Redis list; index 0 is the left end. -/
abbrev RList := List String

/-- Redis `LPUSH`: insert the value at the left end of the list
(`tasks.py` line 28: `redis_service.client.lpush("roam:jobs", ...)`). -/
def lpush (v : String) (q : RList) : RList := v :: q

/-- Redis `BLPOP`: remove and return the element at the left end, or block
(modelled as `none`) when the list is empty
(`roam_worker.py` line 31: `self.redis.blpop(self.job_queue, timeout=0)`). -/
def blpop : RList → Option (String × RList)
  | [] => none
  | x :: q => some (x, q)

/-- Enqueue a batch of jobs in submission order, each via `submit_task`'s
`lpush`, starting from queue `q`. -/
def enqueueAll (js : List String) (q : RList) : RList :=
  js.foldl (fun acc j => lpush j acc) q

/-- The sequence of jobs observed by workers that repeatedly `blpop` until
the queue is empty. -/
def drain : RList → List String
  | [] => []
  | x :: q => x :: drain q

/-! ## A mini-Python fragment

The worker executes Python source with `exec`/`eval`.  We embed the fragment
of Python that the payload builder (`env.py` lines 100-131) emits and that the
spec's concrete scenarios exercise: integer/string/bool/None literals, names,
`+`, `*`, `/`, f-strings over names, calls with positional and keyword
arguments and parameter defaults, `print(...)` and `repr(...)`.

`exec(code, exec_globals, exec_locals)` in `roam_worker.py` keeps the
definitions and assignments of the executed module in `exec_locals` while
`exec_globals` holds only `__name__`; name lookup falls through locals to
globals to builtins.  We therefore model the environment as a single
association list (the locals dict) with `print`/`repr` as builtin
constructs. -/

/-- The single-quote character, used by Python `repr` on strings. -/
def squote : String := "\x27"

mutual

/-- A Python runtime value of the embedded fragment. -/
inductive PyVal where
  | vint (n : Int)
  | vfloat (q : Rat)
  | vstr (s : String)
  | vbool (b : Bool)
  | vnone
  /-- A function object: name, parameters (with optional defaults), and its
  body, which in every payload of this system is a single returned
  expression. -/
  | vfunc (fname : String) (params : List PyParam) (body : PyExpr)
  /-- A value with no literal textual form (open handle, closure, cyclic
  structure); `desc` is the text between the angle brackets of its `repr`. -/
  | vhandle (desc : String)
deriving Repr

/-- A formal parameter with an optional default value. -/
inductive PyParam where
  | mk (pname : String) (dflt : Option PyVal)
deriving Repr

/-- A fragment of an f-string: literal text or an interpolated name. -/
inductive FPart where
  | ftext (s : String)
  | fvar (x : String)
deriving Repr

/-- An expression of the embedded fragment. -/
inductive PyExpr where
  | lit (v : PyVal)
  | name (x : String)
  | add (a b : PyExpr)
  | mul (a b : PyExpr)
  | divE (a b : PyExpr)
  | fstr (parts : List FPart)
  | call (f : String) (args : List PyExpr) (kwargs : List KwArg)
  | printE (e : PyExpr)
  | reprE (e : PyExpr)
  /-- Source text that is not valid Python (e.g. the spliced `repr` of a
  value with no literal form): evaluating it is a `SyntaxError`. -/
  | badLit (text : String)
deriving Repr

/-- A keyword argument at a call site. -/
inductive KwArg where
  | mk (key : String) (val : PyExpr)
deriving Repr

end

/-- A Python statement as it occurs in built payloads: a `def`, an
assignment, or an expression statement. -/
inductive PyStmt where
  | sfunc (fname : String) (params : List PyParam) (body : PyExpr)
  | sassign (x : String) (e : PyExpr)
  | sexpr (e : PyExpr)
deriving Repr

/-- A raised Python exception.  The embedded fragment can only raise the
exceptions enumerated here; `kind` is the exception class name and `msg` is
its `str(e)` message. -/
inductive PyErr where
  | zeroDivision
  | typeErrorBinOp (op : String)
  | typeErrorNotCallable
  | typeErrorUnexpectedKw (fname : String)
  | typeErrorTooManyPos (fname : String)
  | typeErrorMultipleValues (fname x : String)
  | typeErrorMissingArg (fname x : String)
  | nameError (x : String)
  | recursionError
  | syntaxError
deriving Repr, DecidableEq

def PyErr.kind : PyErr → String
  | .zeroDivision => "ZeroDivisionError"
  | .typeErrorBinOp _ => "TypeError"
  | .typeErrorNotCallable => "TypeError"
  | .typeErrorUnexpectedKw _ => "TypeError"
  | .typeErrorTooManyPos _ => "TypeError"
  | .typeErrorMultipleValues _ _ => "TypeError"
  | .typeErrorMissingArg _ _ => "TypeError"
  | .nameError _ => "NameError"
  | .recursionError => "RecursionError"
  | .syntaxError => "SyntaxError"

def PyErr.msg : PyErr → String
  | .zeroDivision => "division by zero"
  | .typeErrorBinOp op => "unsupported operand type(s) for " ++ op
  | .typeErrorNotCallable => "object is not callable"
  | .typeErrorUnexpectedKw f => f ++ "() got an unexpected keyword argument"
  | .typeErrorTooManyPos f => f ++ "() takes more positional arguments than were given"
  | .typeErrorMultipleValues f x =>
      f ++ "() got multiple values for argument " ++ squote ++ x ++ squote
  | .typeErrorMissingArg f x =>
      f ++ "() missing required positional argument " ++ squote ++ x ++ squote
  | .nameError x => "name " ++ squote ++ x ++ squote ++ " is not defined"
  | .recursionError => "maximum recursion depth exceeded"
  | .syntaxError => "invalid syntax"

/-- The execution environment: the `exec_locals` dict.  `envSet` conses, and
`envGet` takes the first match, so later assignments shadow earlier ones. -/
abbrev PyEnv := List (String × PyVal)

def envGet (env : PyEnv) (x : String) : Option PyVal :=
  (env.find? (fun p => p.1 == x)).map Prod.snd

def envSet (env : PyEnv) (x : String) (v : PyVal) : PyEnv :=
  (x, v) :: env

/-- Python `str()` on the embedded values (float formatting is outside the
claims and rendered via `Rat`'s printer). -/
def pyStr : PyVal → String
  | .vint n => toString n
  | .vfloat q => toString q
  | .vstr s => s
  | .vbool b => if b then "True" else "False"
  | .vnone => "None"
  | .vfunc f _ _ => "<function " ++ f ++ ">"
  | .vhandle d => "<" ++ d ++ ">"

/-- Python `repr()` on the embedded values; strings gain single quotes
(embedded quote escaping is outside the fragment). -/
def pyRepr : PyVal → String
  | .vstr s => squote ++ s ++ squote
  | v => pyStr v

/-- Python `+` on the embedded values. -/
def pyAdd : PyVal → PyVal → Except PyErr PyVal
  | .vint a, .vint b => .ok (.vint (a + b))
  | .vstr a, .vstr b => .ok (.vstr (a ++ b))
  | _, _ => .error (.typeErrorBinOp "+")

/-- Python `*` on the embedded values. -/
def pyMul : PyVal → PyVal → Except PyErr PyVal
  | .vint a, .vint b => .ok (.vint (a * b))
  | _, _ => .error (.typeErrorBinOp "*")

/-- Python `/` on the embedded values: division by zero raises
`ZeroDivisionError("division by zero")`, otherwise true division yields a
float. -/
def pyDiv : PyVal → PyVal → Except PyErr PyVal
  | .vint a, .vint b =>
      if b = 0 then .error .zeroDivision
      else .ok (.vfloat ((a : Rat) / (b : Rat)))
  | _, _ => .error (.typeErrorBinOp "/")

/-- Evaluate the fragments of an f-string, converting interpolated values
with `str()`. -/
def evalFStr (env : PyEnv) : List FPart → Except PyErr String
  | [] => .ok ""
  | .ftext s :: ps => (evalFStr env ps).map (fun r => s ++ r)
  | .fvar x :: ps =>
      match envGet env x with
      | some v => (evalFStr env ps).map (fun r => pyStr v ++ r)
      | none => .error (.nameError x)

/-- Bind call arguments to formal parameters the way Python does: positional
arguments first, then keyword arguments, then defaults; anything left over
or missing is a `TypeError`. -/
def bindParams (fname : String) :
    List PyParam → List PyVal → List (String × PyVal) → Except PyErr PyEnv
  | [], [], kw =>
      if kw.isEmpty then .ok []
      else .error (.typeErrorUnexpectedKw fname)
  | [], _ :: _, _ =>
      .error (.typeErrorTooManyPos fname)
  | .mk x _dflt :: ps, v :: pos, kw =>
      if (kw.find? (fun p => p.1 == x)).isSome then
        .error (.typeErrorMultipleValues fname x)
      else do
        let env ← bindParams fname ps pos kw
        .ok ((x, v) :: env)
  | .mk x dflt :: ps, [], kw =>
      match kw.find? (fun p => p.1 == x) with
      | some kv => do
          let env ← bindParams fname ps [] (kw.filter (fun p => ¬ p.1 == x))
          .ok ((x, kv.2) :: env)
      | none =>
          match dflt with
          | some v => do
              let env ← bindParams fname ps [] kw
              .ok ((x, v) :: env)
          | none =>
              .error (.typeErrorMissingArg fname x)

/-- Evaluate positional arguments left to right with the supplied
expression evaluator. -/
def evalArgsWith (ev : PyExpr → Except PyErr (PyVal × String)) :
    List PyExpr → Except PyErr (List PyVal × String)
  | [] => .ok ([], "")
  | e :: es => do
      let (v, o1) ← ev e
      let (vs, o2) ← evalArgsWith ev es
      .ok (v :: vs, o1 ++ o2)

/-- Evaluate keyword arguments left to right with the supplied expression
evaluator. -/
def evalKwargsWith (ev : PyExpr → Except PyErr (PyVal × String)) :
    List KwArg → Except PyErr (List (String × PyVal) × String)
  | [] => .ok ([], "")
  | .mk k e :: ks => do
      let (v, o1) ← ev e
      let (vs, o2) ← evalKwargsWith ev ks
      .ok ((k, v) :: vs, o1 ++ o2)

/-- Evaluate an expression.  The result carries the stdout text the
evaluation printed.  `fuel` is a step budget standing in for Python's
recursion limit; it is consumed at every evaluation node, so any
terminating Python evaluation is reproduced exactly by taking `fuel` large
enough. -/
def evalExpr : Nat → PyEnv → PyExpr → Except PyErr (PyVal × String)
  | 0, _, _ => .error .recursionError
  | fuel + 1, env, e =>
    match e with
    | .lit v => .ok (v, "")
    | .name x =>
        match envGet env x with
        | some v => .ok (v, "")
        | none => .error (.nameError x)
    | .add a b => do
        let (va, o1) ← evalExpr fuel env a
        let (vb, o2) ← evalExpr fuel env b
        let v ← pyAdd va vb
        .ok (v, o1 ++ o2)
    | .mul a b => do
        let (va, o1) ← evalExpr fuel env a
        let (vb, o2) ← evalExpr fuel env b
        let v ← pyMul va vb
        .ok (v, o1 ++ o2)
    | .divE a b => do
        let (va, o1) ← evalExpr fuel env a
        let (vb, o2) ← evalExpr fuel env b
        let v ← pyDiv va vb
        .ok (v, o1 ++ o2)
    | .fstr parts => do
        let s ← evalFStr env parts
        .ok (.vstr s, "")
    | .call f args kwargs => do
        let (vargs, o1) ← evalArgsWith (evalExpr fuel env) args
        let (vkw, o2) ← evalKwargsWith (evalExpr fuel env) kwargs
        match envGet env f with
        | some (.vfunc fname params body) => do
            let benv ← bindParams fname params vargs vkw
            let (v, o3) ← evalExpr fuel benv body
            .ok (v, o1 ++ o2 ++ o3)
        | some _ => .error .typeErrorNotCallable
        | none => .error (.nameError f)
    | .printE e1 => do
        let (v, o) ← evalExpr fuel env e1
        .ok (.vnone, o ++ pyStr v ++ "\n")
    | .reprE e1 => do
        let (v, o) ← evalExpr fuel env e1
        .ok (.vstr (pyRepr v), o)
    | .badLit _ => .error .syntaxError

/-- Execute one statement, returning the updated locals and the stdout it
printed. -/
def execStmt (fuel : Nat) (env : PyEnv) : PyStmt → Except PyErr (PyEnv × String)
  | .sfunc f ps b => .ok (envSet env f (.vfunc f ps b), "")
  | .sassign x e => do
      let (v, o) ← evalExpr fuel env e
      .ok (envSet env x v, o)
  | .sexpr e => do
      let (_, o) ← evalExpr fuel env e
      .ok (env, o)

/-- Execute a statement list in order (`exec` on the module body). -/
def execStmts (fuel : Nat) (env : PyEnv) : List PyStmt → Except PyErr (PyEnv × String)
  | [] => .ok (env, "")
  | s :: ss => do
      let (env', o1) ← execStmt fuel env s
      let (env'', o2) ← execStmts fuel env' ss
      .ok (env'', o1 ++ o2)

/-! ### Source text of the embedded fragment

`roam_worker.execute_code` re-reads the payload *text*: it splits the code on
newlines and inspects `lines[-1].strip()` with `str.startswith`.  We render
each embedded expression back to its Python source so those string checks run
on the same text Python would see. -/

/-- Opening brace of an f-string interpolation. -/
def obrace : String := "\x7b"

/-- Closing brace of an f-string interpolation. -/
def cbrace : String := "\x7d"

def renderFPart : FPart → String
  | .ftext s => s
  | .fvar x => obrace ++ x ++ cbrace

mutual

/-- Python source text of an expression (all embedded expressions are
single-line). -/
def renderExpr : PyExpr → String
  | .lit v => pyRepr v
  | .name x => x
  | .add a b => renderExpr a ++ " + " ++ renderExpr b
  | .mul a b => renderExpr a ++ " * " ++ renderExpr b
  | .divE a b => renderExpr a ++ " / " ++ renderExpr b
  | .fstr parts => "f" ++ squote ++ String.join (parts.map renderFPart) ++ squote
  | .call f args kwargs =>
      f ++ "(" ++ String.intercalate ", " (renderArgs args ++ renderKwargs kwargs) ++ ")"
  | .printE e => "print(" ++ renderExpr e ++ ")"
  | .reprE e => "repr(" ++ renderExpr e ++ ")"
  | .badLit t => t

def renderArgs : List PyExpr → List String
  | [] => []
  | e :: es => renderExpr e :: renderArgs es

def renderKwargs : List KwArg → List String
  | [] => []
  | .mk k e :: ks => (k ++ "=" ++ renderExpr e) :: renderKwargs ks

end

/-- The stripped final physical line of a statement, as seen by
`code.strip().split("\n")[-1].strip()`: for a `def` block the last physical
line is its (indented) `return` line, for the single-line statements it is
the statement itself. -/
def lastPhysicalLine : PyStmt → String
  | .sfunc _ _ body => "return " ++ renderExpr body
  | .sassign x e => x ++ " = " ++ renderExpr e
  | .sexpr e => renderExpr e

/-- The `startswith` filter of `roam_worker.execute_code` line 97: lines
starting with these tokens are not treated as evaluable expressions. -/
def heuristicSkip (line : String) : Bool :=
  ["import ", "from ", "def ", "class ", "if ", "for ", "while ", "with ", "try:"].any
    (fun p => line.startsWith p)

/-- `eval(last_line, exec_globals, exec_locals)`: the text of an expression
statement parses as an expression and is evaluated; the text of an
assignment or of a `return` line is a `SyntaxError`. -/
def evalLastLineText (fuel : Nat) (env : PyEnv) : PyStmt → Except PyErr (PyVal × String)
  | .sexpr e => evalExpr fuel env e
  | _ => .error .syntaxError

/-- `PersistentWorker.execute_code` (`roam_worker.py` lines 83-105): exec the
code, then if the last line is non-empty and not filtered, try to eval it and
return its value; on eval failure or a filtered last line, fall back to the
`result` local (default `None`).  stdout is not redirected by this worker:
whatever the code prints goes to the worker's console and is discarded
here. -/
def execute_code (fuel : Nat) (code : List PyStmt) : Except PyErr PyVal := do
  let (envL, _console) ← execStmts fuel [] code
  match code.getLast? with
  | none => .ok ((envGet envL "result").getD .vnone)
  | some last =>
      let lastText := lastPhysicalLine last
      if !(lastText == "") && !(heuristicSkip lastText) then
        match evalLastLineText fuel envL last with
        | .ok (v, _) => .ok v
        | .error _ => .ok ((envGet envL "result").getD .vnone)
      else
        .ok ((envGet envL "result").getD .vnone)

/-- The structured result published by the worker: the dicts built at
`roam_worker.py` lines 60-65 (success) and 72-78 (failure).  Both hardcode
`stdout` to the empty string. -/
structure Outcome where
  success : Bool
  return_value : Option PyVal := none
  error : Option String := none
  traceback : Option String := none
  stdout : String := ""
  stderr : Option String := none
deriving Repr

/-- `PersistentWorker.execute_job` (`roam_worker.py` lines 45-81): run
`execute_code` and publish a success outcome with its value, or catch the
exception and publish a failure outcome with `error = str(e)`.  The
`traceback` field abbreviates `traceback.format_exc()` to the exception's
class and message. -/
def execute_job (fuel : Nat) (code : List PyStmt) : Outcome :=
  if code.isEmpty then
    { success := false, error := some "No code provided in job",
      traceback := some "ValueError: No code provided in job" }
  else
    match execute_code fuel code with
    | .ok v => { success := true, return_value := some v }
    | .error e =>
        { success := false, error := some e.msg,
          traceback := some (e.kind ++ ": " ++ e.msg) }

/-! ### The payload builder (`env.py` lines 100-131)

`Env._execute_remote` serializes every argument with bare `repr(arg)` and
splices the text into the payload.  For values whose `repr` is a valid
literal the remote side parses it back; for anything else (`repr` of a file
handle, a function, ...) the spliced text is not valid Python.  There is no
serializability check and no `UnserializableArgument` error anywhere in the
client. -/

/-- The expression the remote side parses from `repr(arg)` spliced into the
payload text. -/
def pySerialize : PyVal → PyExpr
  | .vint n => .lit (.vint n)
  | .vfloat q => .lit (.vfloat q)
  | .vstr s => .lit (.vstr s)
  | .vbool b => .lit (.vbool b)
  | .vnone => .lit .vnone
  | .vfunc f ps b => .badLit (pyRepr (.vfunc f ps b))
  | .vhandle d => .badLit (pyRepr (.vhandle d))

/-- Whether a value has a safe literal textual form under `repr`. -/
def hasLiteralForm : PyVal → Bool
  | .vint _ | .vfloat _ | .vstr _ | .vbool _ | .vnone => true
  | .vfunc _ _ _ | .vhandle _ => false

/-- `Env._execute_remote` lines 122-131: the executable payload — the
cleaned function source, then `result = fname(serialized args)`, then
`print(repr(result))`.  (Both the with-arguments and the no-arguments branch
of the Python code produce exactly this shape.) -/
def buildPayload (fnDef : PyStmt) (fname : String)
    (args : List PyVal) (kwargs : List (String × PyVal)) : List PyStmt :=
  [fnDef,
   .sassign "result"
     (.call fname (args.map pySerialize)
       (kwargs.map (fun p => KwArg.mk p.1 (pySerialize p.2)))),
   .sexpr (.printE (.reprE (.name "result")))]

/-! ### The spec's concrete scenarios (spec section 8; `e2e` test bodies) -/

/-- `def add_numbers(): return 1 + 1` -/
def addNumbersDef : PyStmt :=
  .sfunc "add_numbers" [] (.add (.lit (.vint 1)) (.lit (.vint 1)))

/-- `def multiply(a, b): return a * b` -/
def multiplyDef : PyStmt :=
  .sfunc "multiply" [.mk "a" none, .mk "b" none] (.mul (.name "a") (.name "b"))

/-- `def greet(name, greeting="Hello"): return f"(greeting), (name)!"` with
braces around the interpolations. -/
def greetDef : PyStmt :=
  .sfunc "greet" [.mk "name" none, .mk "greeting" (some (.vstr "Hello"))]
    (.fstr [.fvar "greeting", .ftext ", ", .fvar "name", .ftext "!"])

/-- `def divide_by_zero(): return 1 / 0` -/
def divideByZeroDef : PyStmt :=
  .sfunc "divide_by_zero" [] (.divE (.lit (.vint 1)) (.lit (.vint 0)))

/-- The `result` local left behind by `exec` of a payload (what the
fallback branch of `execute_code` would read). -/
def execResultVar (fuel : Nat) (code : List PyStmt) : Except PyErr (Option PyVal) :=
  (execStmts fuel [] code).map (fun p => envGet p.1 "result")

/-- A payload that prints and then raises:
`print("hello")` followed by `1 / 0`. -/
def printThenFailCode : List PyStmt :=
  [.sexpr (.printE (.lit (.vstr "hello"))),
   .sexpr (.divE (.lit (.vint 1)) (.lit (.vint 0)))]

/-! ## The controller job loop (`main.py`)

`submit_job` creates the job record with status "pending" and schedules
`execute_job`, which sets "running", creates a Kubernetes Job, then polls
its status every 2 seconds while `elapsed < timeout` with `timeout = 300`,
so at most 150 poll iterations run.  We model the poll loop as a function
of the sequence of poll responses, with `fuel = 150 - i` the number of
iterations the `while` guard still allows. -/

/-- One iteration's view of the Kubernetes job, as read at `main.py` lines
131-192: succeeded (with the first pod's stripped logs, or `none` when
`pods.items` is empty), failed (with logs when a pod's log could be read),
an `ApiException`, or still running. -/
inductive PollResult where
  | succeeded (logs : Option String)
  | podsFailed (logs : Option String)
  | apiError (msg : String)
  | stillRunning
deriving Repr, DecidableEq

/-- The controller's stored result: `json.loads(logs)` when the log text is
a JSON document, else the raw text (lines 152-156).  We model the JSON
fragment these payloads produce: integer documents parse, everything else
is kept raw. -/
inductive ResVal where
  | jsonInt (n : Int)
  | raw (s : String)
deriving Repr, DecidableEq

def parseLogs (s : String) : ResVal :=
  match s.toInt? with
  | some n => .jsonInt n
  | none => .raw s

/-- A mutation of the in-memory `jobs[job_id]` record. -/
inductive JobWrite where
  | wstatus (s : String)
  | wresult (r : ResVal)
  | werror (e : String)
deriving Repr, DecidableEq

/-- The writes performed by the poll loop of `execute_job` (lines 131-196),
given the poll responses `polls i` for iteration `i` and the number `fuel`
of iterations the `while elapsed < timeout` guard still allows.  When the
guard stops the loop, lines 194-196 record the timeout failure. -/
def execLoopWrites (polls : Nat → PollResult) : Nat → Nat → List JobWrite
  | 0, _ => [.wstatus "failed", .werror "Job timed out after 300 seconds"]
  | fuel + 1, i =>
      match polls i with
      | .succeeded (some logs) => [.wstatus "completed", .wresult (parseLogs logs)]
      | .succeeded none => execLoopWrites polls fuel (i + 1)
      | .podsFailed logs => [.wstatus "failed", .werror (logs.getD "Job failed")]
      | .apiError m => [.wstatus "failed", .werror ("Kubernetes API error: " ++ m)]
      | .stillRunning => execLoopWrites polls fuel (i + 1)

/-- All writes of one `execute_job` call (lines 69-209): status "running"
first; if Kubernetes setup raises (`setup = some msg`, covering
`load_incluster_config`/`create_namespaced_job`), the outer handler writes
a failure; otherwise the poll loop runs with its 150-iteration budget. -/
def executeJobWrites (setup : Option String) (polls : Nat → PollResult) : List JobWrite :=
  .wstatus "running" ::
    (match setup with
     | some msg => [.wstatus "failed", .werror msg]
     | none => execLoopWrites polls 150 0)

/-- The successive values taken by `jobs[job_id].status`: "pending" written
by `submit_job` (lines 50-53), then the writes of `execute_job`. -/
def statusOfWrite : JobWrite → Option String
  | .wstatus s => some s
  | _ => none

def jobStatusTrace (setup : Option String) (polls : Nat → PollResult) : List String :=
  "pending" :: (executeJobWrites setup polls).filterMap statusOfWrite

/-- The in-memory job record (`JobResponse` in `main.py`). -/
structure JobRec where
  status : String
  result : Option ResVal := none
  error : Option String := none
deriving Repr, DecidableEq

def applyWrite (j : JobRec) : JobWrite → JobRec
  | .wstatus s => { j with status := s }
  | .wresult r => { j with result := some r }
  | .werror e => { j with error := some e }

/-- The job record after `submit_job` plus a completed `execute_job` run. -/
def runExecuteJob (setup : Option String) (polls : Nat → PollResult) : JobRec :=
  (executeJobWrites setup polls).foldl applyWrite { status := "pending" }

/-- The `GET /job/(job_id)` response (`main.py` lines 61-66): the stored
record, or a `not_found` response when no record exists. -/
structure JobStatusResp where
  job_id : String
  status : String
  result : Option ResVal := none
  error : Option String := none
deriving Repr, DecidableEq

def lookupJob (jobs : List (String × JobRec)) (id : String) : Option JobRec :=
  (jobs.find? (fun p => p.1 == id)).map Prod.snd

def get_job_status (jobs : List (String × JobRec)) (id : String) : JobStatusResp :=
  match lookupJob jobs id with
  | none => { job_id := id, status := "not_found", error := some "Job not found" }
  | some j => { job_id := id, status := j.status, result := j.result, error := j.error }

/-- The `TaskService.get_task_status` fallback (`tasks.py` lines 75-91): a
Redis GET on key "roam:result:" ++ task_id; a stored value means
"completed", no stored value means "running", and a Redis exception means
"error".  It can never answer "not_found". -/
structure TaskStatusResp where
  task_id : String
  status : String
  result : Option String := none
  error : Option String := none
deriving Repr, DecidableEq

def kvGet (store : List (String × String)) (k : String) : Option String :=
  (store.find? (fun p => p.1 == k)).map Prod.snd

def get_task_status (store : List (String × String)) (redisErr : Option String)
    (tid : String) : TaskStatusResp :=
  match redisErr with
  | some e => { task_id := tid, status := "error", error := some e }
  | none =>
      match kvGet store ("roam:result:" ++ tid) with
      | some r => { task_id := tid, status := "completed", result := some r }
      | none => { task_id := tid, status := "running" }

/-! ## The streaming gateway (`streaming.py`, `redis.py`)

`StreamingService.create_sse_stream` yields a `connected` event, then for
each JSON message delivered on the job's Redis channel a `result` event,
then — as soon as a message carries a `success` key (`message.get("success")
is not None`) — a `complete` event, and stops.  Any exception inside the
generator yields a single `error` event.  `RedisService.listen_to_channel_sync`
silently skips malformed (non-JSON) channel data. -/

/-- A JSON object delivered on the result channel: its `success` field (or
`none` when the key is absent) and the rest of the message, opaque here. -/
structure RMsg where
  success : Option Bool
  body : String
deriving Repr, DecidableEq

/-- A server-sent event of the stream protocol. -/
inductive SSEvent where
  | connected (task_id : String)
  | result (m : RMsg)
  | complete
  | fault (err : String)
deriving Repr, DecidableEq

/-- `listen_to_channel_sync` (`redis.py` lines 34-48): the channel delivers
raw data items; items that fail JSON decoding (`none`) are skipped. -/
def listenToChannel (raw : List (Option RMsg)) : List RMsg := raw.filterMap id

/-- The body of the `event_stream` generator after the `connected` event:
one `result` event per delivered message, `complete` immediately after the
first message with a `success` key; `f` models an exception raised inside
the generator after the delivered messages are consumed, which the
`except` clause turns into an `error` event. -/
def streamBody (f : Option String) : List RMsg → List SSEvent
  | [] =>
      match f with
      | some e => [.fault e]
      | none => []
  | m :: rest =>
      .result m :: (if (m.success).isSome then [.complete] else streamBody f rest)

/-- `StreamingService.create_sse_stream` (`streaming.py` lines 13-45). -/
def create_sse_stream (tid : String) (raw : List (Option RMsg)) (f : Option String) :
    List SSEvent :=
  .connected tid :: streamBody f (listenToChannel raw)

/-! ## The client (`env.py`): sync wrapper and result polling -/

/-- `asyncio.get_running_loop()`: returns the loop, or raises
`RuntimeError("no running event loop")` when none runs. -/
def getRunningLoopCheck (loopRunning : Bool) : Except String Unit :=
  if loopRunning then .ok () else .error "no running event loop"

/-- The `try` body of `sync_wrapper` (`env.py` lines 64-69): call
`get_running_loop`, and if it succeeds, raise the explicit RuntimeError.
Either way the body ends in a RuntimeError — which the function's own
`except RuntimeError` clause then catches. -/
def syncTryBody (loopRunning : Bool) : Except String Unit := do
  let _ ← getRunningLoopCheck loopRunning
  throw ("Cannot call sync version from async context. Use "
    ++ squote ++ "await" ++ squote ++ " instead.")

/-- `asyncio.run(coro)`: refuses to start when a loop is already running,
raising immediately before any waiting happens; otherwise runs the
coroutine to completion (its result is `remoteResult` here). -/
def asyncio_run (loopRunning : Bool) (remoteResult : PyVal) : Except String PyVal :=
  if loopRunning then
    .error "asyncio.run() cannot be called from a running event loop"
  else .ok remoteResult

/-- `sync_wrapper` (`env.py` lines 61-72): the `except RuntimeError` clause
catches both the "no running loop" error and the wrapper's own explicit
raise, and proceeds to `asyncio.run`; with a running loop, `asyncio.run`'s
own guard raises immediately. -/
def sync_wrapper (loopRunning : Bool) (remoteResult : PyVal) : Except String PyVal :=
  match syncTryBody loopRunning with
  | .error _ => asyncio_run loopRunning remoteResult
  | .ok _ => .ok .vnone

/-- The client-side `eval(result)` of `_wait_for_job` (`env.py` lines
244-248), modelled on the literal fragment the system's `repr` splicing
produces: integer literals, single-quoted string literals, `True`, `False`
and `None`; anything else raises (yields `none`). -/
def parseEvalLit (s : String) : Option PyVal :=
  match s.toInt? with
  | some n => some (.vint n)
  | none =>
      if s = "True" then some (.vbool true)
      else if s = "False" then some (.vbool false)
      else if s = "None" then some .vnone
      else if s.startsWith squote && s.endsWith squote && s.length ≥ 2 then
        some (.vstr ((s.drop 1).dropRight 1))
      else none

/-- `_wait_for_job` lines 241-249 on a completed poll: a string result is
`eval`-ed and the evaluated value returned, falling back to the raw string
when `eval` raises; a non-string result is returned unchanged; an absent
result is `None`. -/
def interpretResult : Option ResVal → PyVal
  | some (.raw s) =>
      match parseEvalLit s with
      | some v => v
      | none => .vstr s
  | some (.jsonInt n) => .vint n
  | none => .vnone

/-- One `GET /job/(job_id)` response as seen by the polling client. -/
inductive PollResp where
  | completedR (result : Option ResVal)
  | failedR (error : Option String)
  | pendingR
  | runningR
  | otherR (s : String)
deriving Repr, DecidableEq

/-- What `_wait_for_job` returns to the caller: a value, or a raised
`RemoteExecutionError` message. -/
inductive ClientOutcome where
  | okC (v : PyVal)
  | errC (msg : String)
deriving Repr

/-- `_wait_for_job` (`env.py` lines 224-262) over the successive poll
responses; exhausting the list models the 300-second polling window
expiring. -/
def waitForJob (tid : String) : List PollResp → ClientOutcome
  | [] => .errC ("Job " ++ tid ++ " timed out after 300 seconds")
  | p :: rest =>
      match p with
      | .completedR r => .okC (interpretResult r)
      | .failedR e => .errC ("Job failed: " ++ e.getD "Unknown error")
      | .pendingR => waitForJob tid rest
      | .runningR => waitForJob tid rest
      | .otherR s => .errC ("Unknown job status: " ++ s)

/-! ## Theorems

Helper lemmas first, then one theorem (with counterexample and witness
theorems where applicable) per claim C1-C10. -/

/-- One `blpop` step followed by draining the remainder is exactly `drain`:
`drain` is the iterated-`blpop` observation order. -/
theorem drain_blpop (q : RList) :
    (match blpop q with
     | none => []
     | some (j, q') => j :: drain q') = drain q := by
  cases q <;> rfl

theorem drain_id (q : RList) : drain q = q := by
  induction q with
  | nil => rfl
  | cons x q ih => simpa [drain] using ih

theorem enqueueAll_eq (js : List String) (q : RList) :
    enqueueAll js q = js.reverse ++ q := by
  induction js generalizing q with
  | nil => simp [enqueueAll]
  | cons j js ih =>
      simp [enqueueAll, lpush] at ih ⊢

/-- C1 counterexample: submit job "jobA" and then job "jobB" onto an
initially empty queue; the first dequeue observes "jobB", not the job
submitted first, so the queue is not FIFO as the claim states. -/
theorem C1_fifo_counterexample :
    ¬ ((blpop (enqueueAll ["jobA", "jobB"] [])).map Prod.fst = some "jobA") := by
  simp [enqueueAll, lpush, blpop]

/-- C1 (amended): because `submit_task` pushes with `LPUSH` and the worker
pops with `BLPOP` — both acting on the left end of the Redis list — the
queue is a stack: for any sequence of jobs submitted onto an initially empty
queue, workers draining the queue observe them in reverse submission order
(LIFO), and each job is observed exactly once. -/
theorem C1_queue_lifo (js : List String) :
    drain (enqueueAll js []) = js.reverse := by
  rw [drain_id, enqueueAll_eq, List.append_nil]

theorem append_ne_empty_of_right (a : String) {b : String} (hb : b ≠ "") :
    a ++ b ≠ "" := by
  intro h
  apply hb
  have hl := congrArg String.length h
  simp [String.length_append] at hl
  have hd : b.data.length = 0 := by
    have h2 := hl.2
    simpa [← String.length_data] using h2
  exact String.ext (by simpa using List.length_eq_zero.mp hd)

theorem append_ne_empty_of_left {a : String} (b : String) (ha : a ≠ "") :
    a ++ b ≠ "" := by
  intro h
  apply ha
  have hl := congrArg String.length h
  simp [String.length_append] at hl
  have hd : a.data.length = 0 := by
    have h1 := hl.1
    simpa [← String.length_data] using h1
  exact String.ext (by simpa using List.length_eq_zero.mp hd)

/-- Every exception the embedded fragment can raise carries a non-empty
`str(e)` message. -/
theorem PyErr.msg_ne_empty (e : PyErr) : e.msg ≠ "" := by
  cases e <;> simp only [PyErr.msg] <;>
    first
      | decide
      | exact append_ne_empty_of_right _ (by decide)
      | exact append_ne_empty_of_left _ (by decide)

/-- If a `print(...)` expression evaluates successfully, its value is
`None`. -/
theorem evalExpr_printE_none (fuel : Nat) (env : PyEnv) (e : PyExpr) (v : PyVal)
    (o : String) (h : evalExpr fuel env (.printE e) = .ok (v, o)) : v = .vnone := by
  cases fuel with
  | zero => simp [evalExpr] at h
  | succ f =>
      simp only [evalExpr] at h
      cases he : evalExpr f env e with
      | error err => rw [he] at h; simp [Bind.bind, Except.bind] at h
      | ok p =>
          obtain ⟨v1, o1⟩ := p
          rw [he] at h
          simp only [Bind.bind, Except.bind, pure, Except.pure, Except.ok.injEq,
            Prod.mk.injEq] at h
          exact h.1.symm

/-- Executing a statement list ending in an expression statement, when it
succeeds, leaves an environment in which that final expression evaluates
successfully (the expression was just evaluated in exactly that
environment). -/
theorem execStmts_append_sexpr (fuel : Nat) (e : PyExpr) :
    ∀ (ss : List PyStmt) (env0 envL : PyEnv) (out : String),
    execStmts fuel env0 (ss ++ [.sexpr e]) = .ok (envL, out) →
    ∃ v o, evalExpr fuel envL e = .ok (v, o) := by
  intro ss
  induction ss with
  | nil =>
      intro env0 envL out h
      simp only [List.nil_append, execStmts, execStmt, Bind.bind, Except.bind] at h
      cases he : evalExpr fuel env0 e with
      | error err => rw [he] at h; cases h
      | ok p =>
          obtain ⟨v, o⟩ := p
          rw [he] at h
          simp only [pure, Except.pure, Except.ok.injEq, Prod.mk.injEq] at h
          exact ⟨v, o, h.1 ▸ he⟩
  | cons s ss ih =>
      intro env0 envL out h
      simp only [List.cons_append, execStmts, Bind.bind, Except.bind] at h
      split at h
      · cases h
      · rename_i p1 heq1
        split at h
        · cases h
        · rename_i p2 heq2
          simp only [Except.ok.injEq, Prod.mk.injEq] at h
          obtain ⟨v, o, hvo⟩ := ih p1.1 p2.1 p2.2 heq2
          exact ⟨v, o, h.1 ▸ hvo⟩

/-- The worker's extraction yields `None` for every payload the builder
emits whose execution succeeds, not only in the concrete scenarios: the
built payload always ends in `print(repr(result))`, `execute_code`
re-evaluates that line, and `print` returns `None`. -/
theorem execute_code_built_payload_none (fuel : Nat) (fnDef : PyStmt) (fname : String)
    (args : List PyVal) (kwargs : List (String × PyVal)) (envL : PyEnv) (out : String)
    (h : execStmts fuel [] (buildPayload fnDef fname args kwargs) = .ok (envL, out)) :
    execute_code fuel (buildPayload fnDef fname args kwargs) = .ok .vnone := by
  have hsplit : buildPayload fnDef fname args kwargs
      = [fnDef, .sassign "result"
          (.call fname (args.map pySerialize)
            (kwargs.map (fun p => KwArg.mk p.1 (pySerialize p.2))))]
        ++ [.sexpr (.printE (.reprE (.name "result")))] := rfl
  obtain ⟨v, o, hvo⟩ := execStmts_append_sexpr fuel (.printE (.reprE (.name "result")))
    _ [] envL out (hsplit ▸ h)
  have hv : v = .vnone := evalExpr_printE_none fuel envL _ v o hvo
  subst hv
  unfold execute_code
  simp only [Bind.bind, Except.bind, h]
  have hlast : (buildPayload fnDef fname args kwargs).getLast?
      = some (.sexpr (.printE (.reprE (.name "result")))) := rfl
  rw [hlast]
  split
  · rename_i heq
    exact Option.noConfusion heq
  · rename_i last heq
    injection heq with heq2
    subst heq2
    split
    · simp only [evalLastLineText, hvo]
    · rename_i hcond
      exact absurd (by with_unfolding_all rfl) hcond

/-- C2 counterexample: the payload built for `add_numbers` (computing 1 + 1)
with no arguments, executed by the worker with its result-extraction
strategy, does *not* yield return_value 2: the payload ends in
`print(repr(result))`, the worker evaluates that final line with `eval`,
and `print(...)` returns `None`. -/
theorem C2_extraction_counterexample :
    ¬ ((execute_job 100 (buildPayload addNumbersDef "add_numbers" [] [])).return_value
        = some (.vint 2)) := by
  intro h
  rw [show (execute_job 100 (buildPayload addNumbersDef "add_numbers" [] [])).return_value
        = some PyVal.vnone from by with_unfolding_all rfl] at h
  injection h with h2
  exact PyVal.noConfusion h2

/-- C2 (amended): executing the built payloads on the worker succeeds, and
the callable's local return value is computed into the payload's `result`
binding (2, 12, "Hi, World!" respectively), but the published Outcome
carries `success = true` with `return_value = None` in all three success
scenarios, because the worker re-evaluates the payload's final
`print(repr(result))` line and `print` returns `None`; the division-by-zero
payload yields `success = false` with error "division by zero". -/
theorem C2_scenario_outcomes :
    (execute_job 100 (buildPayload addNumbersDef "add_numbers" [] [])
        = { success := true, return_value := some .vnone }
      ∧ execResultVar 100 (buildPayload addNumbersDef "add_numbers" [] [])
          = .ok (some (.vint 2)))
    ∧ (execute_job 100 (buildPayload multiplyDef "multiply" [.vint 3, .vint 4] [])
        = { success := true, return_value := some .vnone }
      ∧ execResultVar 100 (buildPayload multiplyDef "multiply" [.vint 3, .vint 4] [])
          = .ok (some (.vint 12)))
    ∧ (execute_job 100 (buildPayload greetDef "greet" [.vstr "World"] [("greeting", .vstr "Hi")])
        = { success := true, return_value := some .vnone }
      ∧ execResultVar 100 (buildPayload greetDef "greet" [.vstr "World"] [("greeting", .vstr "Hi")])
          = .ok (some (.vstr "Hi, World!")))
    ∧ execute_job 100 (buildPayload divideByZeroDef "divide_by_zero" [] [])
        = { success := false, error := some "division by zero",
            traceback := some "ZeroDivisionError: division by zero" } := by
  refine ⟨⟨?_, ?_⟩, ⟨?_, ?_⟩, ⟨?_, ?_⟩, ?_⟩ <;> with_unfolding_all rfl

/-- C4 counterexample: for an argument with no safe literal form (an open
file handle), the payload builder does not fail with any error — `env.py`
has no `UnserializableArgument` and no serializability check — it splices
`repr(arg)` into the payload and hands the payload over; the failure only
surfaces remotely, as a `SyntaxError` when the payload is executed. -/
theorem C4_no_unserializable_error :
    buildPayload addNumbersDef "add_numbers" [.vhandle "open file handle"] [] =
      [addNumbersDef,
       .sassign "result" (.call "add_numbers" [.badLit ("<" ++ "open file handle" ++ ">")] []),
       .sexpr (.printE (.reprE (.name "result")))]
    ∧ (execute_job 100
        (buildPayload addNumbersDef "add_numbers" [.vhandle "open file handle"] [])).error
        = some "invalid syntax" := by
  exact ⟨by with_unfolding_all rfl, by with_unfolding_all rfl⟩

/-- C4 (amended): the payload builder never raises: it serializes every
argument with bare `repr` and always produces the three-statement payload.
For arguments that do have a safe literal form (int, float, str, bool,
None) the spliced literal parses back remotely into an equivalent value;
for other arguments the spliced text is invalid source, so execution — not
payload construction — fails. -/
theorem C4_repr_roundtrip (v : PyVal) (fuel : Nat) (env : PyEnv)
    (h : hasLiteralForm v = true) :
    evalExpr (fuel + 1) env (pySerialize v) = .ok (v, "")
    ∧ ∀ (fnDef : PyStmt) (fname : String) (args : List PyVal)
        (kwargs : List (String × PyVal)),
        (buildPayload fnDef fname args kwargs).length = 3 := by
  constructor
  · cases v with
    | vint n => rfl
    | vfloat q => rfl
    | vstr s => rfl
    | vbool b => rfl
    | vnone => rfl
    | vfunc f ps b => exact absurd h (by simp [hasLiteralForm])
    | vhandle d => exact absurd h (by simp [hasLiteralForm])
  · intro fnDef fname args kwargs
    rfl

theorem C4_repr_roundtrip_witness :
    hasLiteralForm (.vint 42) = true
    ∧ evalExpr 1 [] (pySerialize (.vint 42)) = .ok (.vint 42, "") :=
  ⟨rfl, (C4_repr_roundtrip (.vint 42) 0 [] rfl).1⟩

/-- The Outcome published by the worker carries an empty stdout field for
every payload, succeeding or failing: `roam_worker.py` never redirects
stdout and hardcodes `""` in both result dicts. -/
theorem execute_job_stdout_empty (fuel : Nat) (code : List PyStmt) :
    (execute_job fuel code).stdout = "" := by
  unfold execute_job
  split
  · rfl
  · split <;> rfl

/-- C5 counterexample: a payload that prints "hello" and then divides by
zero.  Its first statement alone does print "hello" before the failing
statement runs, and the published Outcome has `success = false`, but the
Outcome's stdout field is not "hello" followed by a newline — the worker
hardcodes stdout to the empty string, so output produced before the
failure is not preserved. -/
theorem C5_stdout_counterexample :
    execStmt 100 [] (.sexpr (.printE (.lit (.vstr "hello")))) = .ok ([], "hello\n")
    ∧ (execute_job 100 printThenFailCode).success = false
    ∧ ¬ ((execute_job 100 printThenFailCode).stdout = "hello\n") := by
  refine ⟨by with_unfolding_all rfl, by with_unfolding_all rfl, ?_⟩
  rw [show (execute_job 100 printThenFailCode).stdout = "" from by with_unfolding_all rfl]
  decide

/-- C5 (amended): for every payload whose execution raises, the worker
publishes an Outcome with `success = false`, `error` set to the raised
exception's non-empty `str(e)` message and `traceback` to its diagnostic
text, but the Outcome's stdout field is always the empty string
(`roam_worker.py` does not redirect stdout and hardcodes `""` in both
result dicts), so stdout produced before the failure is not preserved, and
no partial result is returned. -/
theorem C5_failure_outcome (fuel : Nat) (code : List PyStmt) (e : PyErr)
    (hne : code ≠ []) (h : execute_code fuel code = .error e) :
    execute_job fuel code =
      { success := false, error := some e.msg,
        traceback := some (e.kind ++ ": " ++ e.msg), stdout := "" }
    ∧ e.msg ≠ "" := by
  have hemp : code.isEmpty = false := by
    cases code with
    | nil => exact absurd rfl hne
    | cons a l => rfl
  refine ⟨?_, PyErr.msg_ne_empty e⟩
  simp [execute_job, hemp, h]

theorem C5_failure_outcome_witness :
    printThenFailCode ≠ []
    ∧ execute_code 100 printThenFailCode = .error .zeroDivision
    ∧ (execute_job 100 printThenFailCode =
        { success := false, error := some PyErr.zeroDivision.msg,
          traceback := some (PyErr.zeroDivision.kind ++ ": " ++ PyErr.zeroDivision.msg),
          stdout := "" }
      ∧ PyErr.zeroDivision.msg ≠ "") :=
  ⟨by simp [printThenFailCode], by with_unfolding_all rfl,
   C5_failure_outcome 100 printThenFailCode .zeroDivision
     (by simp [printThenFailCode]) (by with_unfolding_all rfl)⟩

theorem execLoopWrites_timeout (polls : Nat → PollResult) :
    ∀ (fuel i : Nat), (∀ k, i ≤ k → k < i + fuel → polls k = .stillRunning) →
    execLoopWrites polls fuel i =
      [.wstatus "failed", .werror "Job timed out after 300 seconds"] := by
  intro fuel
  induction fuel with
  | zero => intro i _; rfl
  | succ fuel ih =>
      intro i h
      have h0 : polls i = .stillRunning := h i le_rfl (by omega)
      simp only [execLoopWrites, h0]
      exact ih (i + 1) (fun k hk1 hk2 => h k (by omega) (by omega))

theorem execLoopWrites_status (polls : Nat → PollResult) :
    ∀ (fuel i : Nat), ∃ t, (execLoopWrites polls fuel i).filterMap statusOfWrite = [t]
      ∧ (t = "completed" ∨ t = "failed") := by
  intro fuel
  induction fuel with
  | zero => intro i; exact ⟨"failed", by simp [execLoopWrites, statusOfWrite], Or.inr rfl⟩
  | succ fuel ih =>
      intro i
      cases hp : polls i with
      | succeeded logs =>
          cases logs with
          | none => simpa [execLoopWrites, hp] using ih (i + 1)
          | some s =>
              exact ⟨"completed", by simp [execLoopWrites, hp, statusOfWrite], Or.inl rfl⟩
      | podsFailed logs =>
          exact ⟨"failed", by simp [execLoopWrites, hp, statusOfWrite], Or.inr rfl⟩
      | apiError m =>
          exact ⟨"failed", by simp [execLoopWrites, hp, statusOfWrite], Or.inr rfl⟩
      | stillRunning => simpa [execLoopWrites, hp] using ih (i + 1)

/-- C3 counterexample: a job whose Kubernetes poll never reports completion
(its natural runtime exceeds the 300-second window) ends with status
"failed", not "timed_out": `main.py` has no "timed_out" status at all, the
timeout branch at lines 194-196 writes "failed". -/
theorem C3_no_timed_out_status :
    (runExecuteJob none (fun _ => .stillRunning)).status = "failed"
    ∧ ¬ ((runExecuteJob none (fun _ => .stillRunning)).status = "timed_out") := by
  have hs : (runExecuteJob none (fun _ => .stillRunning)).status = "failed" := by
    with_unfolding_all rfl
  refine ⟨hs, ?_⟩
  rw [hs]
  decide

/-- C3 (amended): a payload whose execution exceeds the configured timeout —
every poll in the 150-iteration window still reports running — always ends
with status "failed" (never "completed"), with the descriptive error
"Job timed out after 300 seconds", and with no result stored: no partial
result is returned.  The code never produces a "timed_out" status. -/
theorem C3_timeout_yields_failed (polls : Nat → PollResult)
    (h : ∀ k, k < 150 → polls k = .stillRunning) :
    runExecuteJob none polls =
      { status := "failed", result := none,
        error := some "Job timed out after 300 seconds" } := by
  unfold runExecuteJob executeJobWrites
  rw [execLoopWrites_timeout polls 150 0 (fun k _ hk2 => h k (by omega))]
  rfl

theorem C3_timeout_yields_failed_witness :
    (∀ k, k < 150 → (fun _ => PollResult.stillRunning) k = PollResult.stillRunning)
    ∧ runExecuteJob none (fun _ => .stillRunning) =
        { status := "failed", result := none,
          error := some "Job timed out after 300 seconds" } :=
  ⟨fun _ _ => rfl, C3_timeout_yields_failed (fun _ => .stillRunning) (fun _ _ => rfl)⟩

/-- C7: for every job, whatever the Kubernetes polls report and whether or
not setup raises, the status trace is exactly "pending", then "running",
then a single terminal value from the claimed terminal set: each transition
is written exactly once, transitions are monotonic, and nothing ever moves
the job out of its terminal state.  (The code's reachable terminal statuses
are "completed" and "failed"; "timed_out" is never written.) -/
theorem C7_status_machine (setup : Option String) (polls : Nat → PollResult) :
    ∃ t, jobStatusTrace setup polls = ["pending", "running", t]
      ∧ (t = "completed" ∨ t = "failed" ∨ t = "timed_out") := by
  unfold jobStatusTrace executeJobWrites
  cases setup with
  | some msg =>
      exact ⟨"failed", by simp [statusOfWrite], Or.inr (Or.inl rfl)⟩
  | none =>
      obtain ⟨t, ht, hor⟩ := execLoopWrites_status polls 150 0
      refine ⟨t, ?_, ?_⟩
      · simp [statusOfWrite, ht]
      · rcases hor with h | h
        · exact Or.inl h
        · exact Or.inr (Or.inl h)

/-- C8 counterexample: the `TaskService.get_task_status` polling fallback,
asked about a job id that was never submitted (empty result store), answers
"running", not "not_found": it cannot distinguish an unknown job from one
whose result is not stored yet. -/
theorem C8_fallback_counterexample :
    (get_task_status [] none "deadbeef").status = "running"
    ∧ ¬ ((get_task_status [] none "deadbeef").status = "not_found") := by
  exact ⟨rfl, by decide⟩

/-- C8 (amended): the main controller's status query `GET /job/(job_id)`
returns a `not_found` record for every job id with no job record; the
`TaskService` Redis fallback, however, reports "running" for any id with no
stored result — including never-submitted ids — and never "not_found". -/
theorem C8_unknown_job_not_found (jobs : List (String × JobRec)) (id : String)
    (h : lookupJob jobs id = none) :
    get_job_status jobs id =
      { job_id := id, status := "not_found", error := some "Job not found" } := by
  simp [get_job_status, h]

theorem C8_unknown_job_not_found_witness :
    lookupJob [] "deadbeef" = none
    ∧ get_job_status [] "deadbeef" =
        { job_id := "deadbeef", status := "not_found", error := some "Job not found" } :=
  ⟨rfl, C8_unknown_job_not_found [] "deadbeef" rfl⟩

/-- C6: on a subscribe request the stream is ordered: first a `connected`
event naming the job id; then, provided every message delivered on the
channel is a worker-published Outcome (it carries a `success` key) and
either a message arrives or the generator faults, the stream is exactly
`connected, result(first message), complete` — the `result` event carries
the Outcome and is followed immediately by `complete` — or exactly
`connected, error` on an internal fault; the stream terminates after
`complete` or `error`. -/
theorem C6_stream_protocol (tid : String) (raw : List (Option RMsg)) (f : Option String)
    (hout : ∀ m ∈ listenToChannel raw, (m.success).isSome)
    (hev : listenToChannel raw ≠ [] ∨ f.isSome) :
    (∃ m rest, listenToChannel raw = m :: rest
      ∧ create_sse_stream tid raw f = [.connected tid, .result m, .complete])
    ∨ (∃ e, f = some e ∧ create_sse_stream tid raw f = [.connected tid, .fault e]) := by
  cases hmsgs : listenToChannel raw with
  | nil =>
      rcases hev with h | h
      · exact absurd hmsgs h
      · obtain ⟨e, he⟩ := Option.isSome_iff_exists.mp h
        refine Or.inr ⟨e, he, ?_⟩
        simp [create_sse_stream, hmsgs, streamBody, he]
  | cons m rest =>
      refine Or.inl ⟨m, rest, rfl, ?_⟩
      have hm : (m.success).isSome :=
        hout m (by rw [hmsgs]; exact List.mem_cons_self m rest)
      simp [create_sse_stream, hmsgs, streamBody, hm]

theorem C6_stream_protocol_witness :
    (∀ m ∈ listenToChannel [some ⟨some true, "outcome"⟩], (m.success).isSome)
    ∧ (listenToChannel [some ⟨some true, "outcome"⟩] ≠ [] ∨ (none : Option String).isSome)
    ∧ ((∃ m rest, listenToChannel [some ⟨some true, "outcome"⟩] = m :: rest
        ∧ create_sse_stream "job-1" [some ⟨some true, "outcome"⟩] none
            = [.connected "job-1", .result m, .complete])
      ∨ (∃ e, (none : Option String) = some e
        ∧ create_sse_stream "job-1" [some ⟨some true, "outcome"⟩] none
            = [.connected "job-1", .fault e])) :=
  ⟨by intro m hm; simp [listenToChannel] at hm; rw [hm]; rfl, Or.inl (by simp [listenToChannel]),
   C6_stream_protocol "job-1" [some ⟨some true, "outcome"⟩] none
     (by intro m hm; simp [listenToChannel] at hm; rw [hm]; rfl)
     (Or.inl (by simp [listenToChannel]))⟩

/-- C9: invoked with a running event loop, the `.sync` wrapper raises an
explicit RuntimeError immediately and the remote call's result is never
produced; without a running loop it runs the call and returns its result.
(The wrapper's own "Cannot call sync version from async context" raise is
caught by its own `except RuntimeError` clause, so the error that actually
surfaces is `asyncio.run`'s guard error — still immediate and explicit,
before any nested blocking wait begins.) -/
theorem C9_sync_from_async_fails_fast (remoteResult : PyVal) :
    sync_wrapper true remoteResult
      = .error "asyncio.run() cannot be called from a running event loop"
    ∧ sync_wrapper false remoteResult = .ok remoteResult :=
  ⟨rfl, rfl⟩

/-- C10: a polled job that, after any number of pending/running polls,
reaches "completed" yields `interpretResult` of its result field: a string
result is evaluated as a Python expression and the evaluated value
returned; the raw string is returned only when that evaluation raises; a
non-string result is returned unchanged. -/
theorem C10_client_result_eval (tid : String) (pre : List PollResp)
    (r : Option ResVal) (rest : List PollResp)
    (hpre : ∀ p ∈ pre, p = .pendingR ∨ p = .runningR) :
    waitForJob tid (pre ++ .completedR r :: rest) = .okC (interpretResult r)
    ∧ (∀ s v, parseEvalLit s = some v → interpretResult (some (.raw s)) = v)
    ∧ (∀ s, parseEvalLit s = none → interpretResult (some (.raw s)) = .vstr s)
    ∧ (∀ n, interpretResult (some (.jsonInt n)) = .vint n) := by
  refine ⟨?_, ?_, ?_, ?_⟩
  · induction pre with
    | nil => rfl
    | cons p ps ih =>
        have hp := hpre p (List.mem_cons_self p ps)
        have hrec := ih (fun q hq => hpre q (List.mem_cons_of_mem p hq))
        rcases hp with h | h <;> subst h <;> simpa [waitForJob] using hrec
  · intro s v h
    simp [interpretResult, h]
  · intro s h
    simp [interpretResult, h]
  · intro n
    rfl

theorem C10_client_result_eval_witness :
    (∀ p ∈ ([.pendingR, .runningR] : List PollResp), p = .pendingR ∨ p = .runningR)
    ∧ waitForJob "job-1"
        ([.pendingR, .runningR] ++ .completedR (some (.raw "2")) :: [])
        = .okC (interpretResult (some (.raw "2")))
    ∧ interpretResult (some (.raw "2")) = .vint 2 :=
  ⟨by decide,
   (C10_client_result_eval "job-1" [.pendingR, .runningR] (some (.raw "2")) [] (by decide)).1,
   by with_unfolding_all rfl⟩

end Roam
